import Mathlib

/-!
Private-data chaincode for products and organisation details.

A shallow embedding of `chaincode/finalChaincode/fChaincode.go`.

* Go `string` values are byte strings; a Lean `String` stands for one, each character
  holding one byte, so `len(s) == 0` is `s.length = 0` and `+` is `++`.
* Go `[]byte` values are `Bytes`; a nil slice carried in a response or a transient map is the
  empty list, and a nil slice returned by the store (key absent) is `none`.
* Go `int` is `Int`: the source only compares it with zero.
* `fmt.Println` calls are left out; they do not influence the response or the store.
* The collaborators outside the repository are inputs of the model: the transient map, the
  client identity library (`cid`), the JSON codec and the failure behaviour of the private
  data store all live in `Stub` and `Json`.
* The private data store is `Ledger`: its contents, and the list of store calls issued so far.
-/

set_option autoImplicit false

namespace Chaincode

/-- Go byte slice. -/
abbrev Bytes := List UInt8

/-- Go conversion `string(b)` of a byte slice: the same bytes, read as a string. -/
def string (b : Bytes) : String :=
  String.mk (b.map fun x => Char.ofNat x.toNat)

/-- Persisted product record (`type product struct`). -/
structure product where
  ObjectType : String
  Name : String
  Color : String
  Owner : String
  Price : Int
deriving DecidableEq, Repr

/-- Persisted organisation record (`type org struct`). -/
structure org where
  ObjectType : String
  Name : String
  Desc : String
  Size : Int
deriving DecidableEq, Repr

/-- Decoded transient payload of `addProduct` (`type productTransientInput struct`). -/
structure productTransientInput where
  ObjectType : String
  Name : String
  Color : String
  Owner : String
  Price : Int
deriving DecidableEq, Repr

/-- Decoded transient payload of `addOrgDetails` (`type orgTransientInput struct`). -/
structure orgTransientInput where
  ObjectType : String
  Name : String
  Desc : String
  Size : Int
deriving DecidableEq, Repr

/-- Response of an invocation (`pb.Response`). -/
structure Response where
  Status : Int
  Message : String
  Payload : Bytes
deriving DecidableEq, Repr

namespace shim

/-- Status code `shim.OK`. -/
def OK : Int := 200

/-- Status code `shim.ERROR`. -/
def ERROR : Int := 500

/-- Response built by `shim.Success(payload)`. -/
def Success (payload : Bytes) : Response :=
  { Status := OK, Message := "", Payload := payload }

/-- Response built by `shim.Error(msg)`. -/
def Error (msg : String) : Response :=
  { Status := ERROR, Message := msg, Payload := [] }

end shim

/-- The codec `encoding/json`, at the four types the chaincode uses it on. -/
structure Json where
  UnmarshalProduct : Bytes → Except String productTransientInput
  UnmarshalOrg : Bytes → Except String orgTransientInput
  MarshalProduct : product → Except String Bytes
  MarshalOrg : org → Except String Bytes

/-- Client identity object returned by `cid.New`. -/
structure ClientID where
  GetMSPID : Except String String

/-- Result triple of `cid.GetAttributeValue`. -/
structure AttributeValue where
  value : String
  found : Bool
  err : Option String

/-- What one invocation sees of the platform (`shim.ChaincodeStubInterface` and `cid`):
the request, the caller, and whether a store call fails (with which error). -/
structure Stub where
  function : String
  args : List String
  GetTransient : Except String (String → Option Bytes)
  cidNew : Except String ClientID
  cidGetAttributeValue : String → AttributeValue
  getFailure : String → String → Option String
  putFailure : String → String → Bytes → Option String

/-- One call on the private data store. -/
inductive Access where
  | get (collection key : String)
  | put (collection key : String) (value : Bytes)
deriving DecidableEq, Repr

/-- The private data store: what each collection holds under each key, and the calls
issued on it so far (oldest first). -/
structure Ledger where
  data : String → String → Option Bytes
  log : List Access

/-- Call `stub.GetFunctionAndParameters()`. -/
def GetFunctionAndParameters (stub : Stub) : String × List String :=
  (stub.function, stub.args)

/-- Call `stub.GetPrivateData(collection, key)`: an error, or the stored bytes (`none` for the
nil slice of an absent key). The call is recorded in the log. -/
def GetPrivateData (stub : Stub) (collection key : String) (l : Ledger) :
    Except String (Option Bytes) × Ledger :=
  let l1 : Ledger := { l with log := l.log ++ [Access.get collection key] }
  match stub.getFailure collection key with
  | some err => (.error err, l1)
  | none => (.ok (l.data collection key), l1)

/-- Call `stub.PutPrivateData(collection, key, value)`: the returned error if any. The call is
recorded in the log; a failed put leaves the contents as they were. -/
def PutPrivateData (stub : Stub) (collection key : String) (value : Bytes) (l : Ledger) :
    Option String × Ledger :=
  match stub.putFailure collection key value with
  | some err => (some err, { l with log := l.log ++ [Access.put collection key value] })
  | none =>
    (none,
      { data := fun c k => if c = collection ∧ k = key then some value else l.data c k
        log := l.log ++ [Access.put collection key value] })

/-- The manufacturer branch of `addProduct` (source lines 157-183): `Except.error` is an early
return of the operation, `Except.ok` falls through to the end of the function. -/
def addProductAsManufacturer (json : Json) (stub : Stub) (productInput : productTransientInput)
    (l : Ledger) : Except (Response × Ledger) Ledger :=
  match GetPrivateData stub "collectionProducts" productInput.Name l with
  | (.error err, l1) => .error (shim.Error ("Failed to get Product: " ++ err), l1)
  | (.ok (some _), l1) =>
    .error (shim.Error ("This Product already exists: " ++ productInput.Name), l1)
  | (.ok none, l1) =>
    let product : product :=
      { ObjectType := "product"
        Name := productInput.Name
        Color := productInput.Color
        Owner := productInput.Owner
        Price := productInput.Price }
    match json.MarshalProduct product with
    | .error err => .error (shim.Error err, l1)
    | .ok productJSONasBytes =>
      match PutPrivateData stub "collectionProducts" productInput.Name productJSONasBytes l1 with
      | (some err, l2) => .error (shim.Error err, l2)
      | (none, l2) => .ok l2

/-- Operation `addProduct` (source lines 83-194). -/
def addProduct (json : Json) (stub : Stub) (args : List String) (l : Ledger) :
    Response × Ledger :=
  if args.length ≠ 4 then (shim.Error "Incorrect number of arguments.", l) else
  match stub.GetTransient with
  | .error err => (shim.Error ("Error getting transient: " ++ err), l)
  | .ok transMap =>
  match transMap "product" with
  | none => (shim.Error "product must be a key in the transient map", l)
  | some raw =>
  if raw.length = 0 then
    (shim.Error "product value in the transient map must be a non-empty JSON string", l)
  else
  match json.UnmarshalProduct raw with
  | .error _ => (shim.Error ("Failed to decode JSON of: " ++ string raw), l)
  | .ok productInput =>
  if productInput.Name.length = 0 then
    (shim.Error "name field must be a non-empty string", l)
  else if productInput.Color.length = 0 then
    (shim.Error "color field must be a non-empty string", l)
  else if productInput.Owner.length = 0 then
    (shim.Error "owner field must be a non-empty string", l)
  else if productInput.Price ≤ 0 then
    (shim.Error "price field must be a positive integer", l)
  else
  match stub.cidNew with
  | .error err => (shim.Error err, l)
  | .ok id =>
  match id.GetMSPID with
  | .error err => (shim.Error err, l)
  | .ok mspid =>
  let branch : Except (Response × Ledger) Ledger :=
    if mspid = "ManufacturerMSP" then
      addProductAsManufacturer json stub productInput l
    else
      -- the error response is built and dropped
      let _ := shim.Error "Wrong MSP"
      .ok l
  match branch with
  | .error r => r
  | .ok l1 => (shim.Success [], l1)

/-- Operation `addOrgDetails` (source lines 196-292). -/
def addOrgDetails (json : Json) (stub : Stub) (args : List String) (l : Ledger) :
    Response × Ledger :=
  if args.length ≠ 3 then (shim.Error "Incorrect number of arguments.", l) else
  match stub.GetTransient with
  | .error err => (shim.Error ("Error getting transient: " ++ err), l)
  | .ok transMap =>
  match transMap "orgDetails" with
  | none => (shim.Error "orgDetails must be a key in the transient map", l)
  | some raw =>
  if raw.length = 0 then
    (shim.Error "orgDetails value in the transient map must be a non-empty JSON string", l)
  else
  match json.UnmarshalOrg raw with
  | .error _ => (shim.Error ("Failed to decode JSON of: " ++ string raw), l)
  | .ok orgInput =>
  if orgInput.Name.length = 0 then
    (shim.Error "name field must be a non-empty string", l)
  else if orgInput.Desc.length = 0 then
    (shim.Error "desc field must be a non-empty string", l)
  else if orgInput.Size ≤ 0 then
    (shim.Error "size field must be a positive integer", l)
  else
  let attr := stub.cidGetAttributeValue "pID"
  match attr.err with
  | some _ => (shim.Error "could not do abac", l)
  | none =>
  let collection : Option String :=
    if attr.value = "GRP1" then some "collection1PrivateProducts"
    else if attr.value = "GRP1" then some "collection2PrivateProducts"
    else none
  match collection with
  | none => (shim.Error "Not a valid user", l)
  | some collectionName =>
  let org : org :=
    { ObjectType := "org"
      Name := orgInput.Name
      Desc := orgInput.Desc
      Size := orgInput.Size }
  match json.MarshalOrg org with
  | .error err => (shim.Error err, l)
  | .ok orgJSONasBytes =>
  match PutPrivateData stub collectionName orgInput.Name orgJSONasBytes l with
  | (some err, l1) => (shim.Error err, l1)
  | (none, l1) => (shim.Success [], l1)

/-- Operation `readProduct` (source lines 297-316). -/
def readProduct (stub : Stub) (args : List String) (l : Ledger) : Response × Ledger :=
  if h : args.length ≠ 1 then
    (shim.Error "Incorrect number of arguments. Expecting name of the product to query", l)
  else
  let name := args.get ⟨0, by omega⟩
  match GetPrivateData stub "collectionProducts" name l with
  | (.error _, l1) =>
    (shim.Error ("\x7b\"Error\":\"Failed to get state for " ++ name ++ "\"\x7d"), l1)
  | (.ok none, l1) =>
    (shim.Error ("\x7b\"Error\":\"Marble does not exist: " ++ name ++ "\"\x7d"), l1)
  | (.ok (some valAsbytes), l1) => (shim.Success valAsbytes, l1)

/-- Operation `readPrivateDetails` (source lines 318-350). The error returned by
`cid.GetAttributeValue` is never inspected. -/
def readPrivateDetails (stub : Stub) (args : List String) (l : Ledger) : Response × Ledger :=
  if h : args.length ≠ 1 then
    (shim.Error "Incorrect number of arguments. Expecting name of the Orgamization to query", l)
  else
  let name := args.get ⟨0, by omega⟩
  let attr := stub.cidGetAttributeValue "pID"
  let collection : Option String :=
    if attr.value = "GRP1" then some "collection1PrivateProducts"
    else if attr.value = "GRP1" then some "collection2PrivateProducts"
    else none
  match collection with
  | none => (shim.Error "Not a valid user", l)
  | some collectionName =>
  match GetPrivateData stub collectionName name l with
  | (.error err, l1) =>
    (shim.Error
      ("\x7b\"Error\":\"Failed to get private details for " ++ name ++ ": " ++ err ++ "\"\x7d"),
      l1)
  | (.ok none, l1) =>
    (shim.Error
      ("\x7b\"Error\":\"Marble private details does not exist: " ++ name ++ "\"\x7d"), l1)
  | (.ok (some valAsbytes), l1) => (shim.Success valAsbytes, l1)

/-- Entry point `Invoke` (source lines 55-78). -/
def Invoke (json : Json) (stub : Stub) (l : Ledger) : Response × Ledger :=
  match GetFunctionAndParameters stub with
  | (function, args) =>
    if function = "addProduct" then addProduct json stub args l
    else if function = "readProduct" then readProduct stub args l
    else if function = "addOrgDetails" then addOrgDetails json stub args l
    else if function = "readPrivateDetails" then readPrivateDetails stub args l
    else (shim.Error "Received unknown function invocation", l)

/-! ## Sample inputs -/

/-- Stand-in for the transient JSON text of a valid product named "widget". -/
def widgetPayload : Bytes := [1]

/-- Stand-in for the stored JSON text of the product named "widget". -/
def widgetRecord : Bytes := [2]

/-- A codec that knows one product payload and one product record. -/
def sampleJson : Json :=
  { UnmarshalProduct := fun raw =>
      if raw = widgetPayload then .ok ⟨"", "widget", "red", "alice", 10⟩
      else .error "invalid character"
    UnmarshalOrg := fun _ => .error "invalid character"
    MarshalProduct := fun r =>
      if r = ⟨"product", "widget", "red", "alice", 10⟩ then .ok widgetRecord
      else .error "unsupported value"
    MarshalOrg := fun _ => .error "unsupported value" }

/-- The transient map carrying the widget payload under "product". -/
def widgetTransient : String → Option Bytes :=
  fun k => if k = "product" then some widgetPayload else none

/-- An `addProduct` request by a manufacturer, on a platform where no store call fails. -/
def manufacturerStub : Stub :=
  { function := "addProduct"
    args := ["widget", "red", "alice", "10"]
    GetTransient := .ok widgetTransient
    cidNew := .ok ⟨.ok "ManufacturerMSP"⟩
    cidGetAttributeValue := fun _ => ⟨"", false, none⟩
    getFailure := fun _ _ => none
    putFailure := fun _ _ _ => none }

/-- The same request made by a member of another organization. -/
def retailerStub : Stub :=
  { manufacturerStub with cidNew := .ok ⟨.ok "RetailerMSP"⟩ }

/-- The manufacturer request on a platform whose store reads fail. -/
def unreadableStub : Stub :=
  { manufacturerStub with getFailure := fun _ _ => some "collection unavailable" }

/-- The manufacturer request on a platform whose store writes fail. -/
def unwritableStub : Stub :=
  { manufacturerStub with putFailure := fun _ _ _ => some "write refused" }

/-- A request for a function the chaincode does not have. -/
def deleteStub : Stub :=
  { manufacturerStub with function := "deleteProduct" }

/-- A store with nothing in it and no call made. -/
def emptyLedger : Ledger :=
  { data := fun _ _ => none, log := [] }

/-- A store holding bytes under "widget" in "collectionProducts". -/
def widgetLedger : Ledger :=
  { data := fun c k => if c = "collectionProducts" ∧ k = "widget" then some [7, 7] else none
    log := [] }

/-- Stand-in for the transient JSON text of a valid organisation named "OrgX". -/
def orgPayload : Bytes := [3]

/-- Stand-in for the stored JSON text of the organisation named "OrgX". -/
def orgRecord : Bytes := [4]

/-- The sample codec, extended with one organisation payload and one organisation record. -/
def orgJson : Json :=
  { sampleJson with
    UnmarshalOrg := fun raw =>
      if raw = orgPayload then .ok ⟨"", "OrgX", "test org", 5⟩
      else .error "invalid character"
    MarshalOrg := fun r =>
      if r = ⟨"org", "OrgX", "test org", 5⟩ then .ok orgRecord
      else .error "unsupported value" }

/-- The transient map carrying the organisation payload under "orgDetails". -/
def orgTransient : String → Option Bytes :=
  fun k => if k = "orgDetails" then some orgPayload else none

/-- An `addOrgDetails` request by a caller whose "pID" attribute is "GRP1". -/
def grp1Stub : Stub :=
  { function := "addOrgDetails"
    args := ["OrgX", "test org", "5"]
    GetTransient := .ok orgTransient
    cidNew := .ok ⟨.ok "ManufacturerMSP"⟩
    cidGetAttributeValue := fun _ => ⟨"GRP1", true, none⟩
    getFailure := fun _ _ => none
    putFailure := fun _ _ _ => none }

/-- The same request by a caller whose "pID" attribute is "GRP2". -/
def grp2Stub : Stub :=
  { grp1Stub with cidGetAttributeValue := fun _ => ⟨"GRP2", true, none⟩ }

/-- The same request when the attribute lookup fails: the library answers the empty value,
not found, together with the error. -/
def lookupErrorStub : Stub :=
  { grp1Stub with
    cidGetAttributeValue := fun _ => ⟨"", false, some "attribute lookup failed"⟩ }

/-- A store holding the organisation record under "OrgX" in "collection1PrivateProducts". -/
def orgLedger : Ledger :=
  { data := fun c k =>
      if c = "collection1PrivateProducts" ∧ k = "OrgX" then some orgRecord else none
    log := [] }

/-- A store holding the widget record under "widget" in "collectionProducts". -/
def recordLedger : Ledger :=
  { data := fun c k => if c = "collectionProducts" ∧ k = "widget" then some widgetRecord else none
    log := [] }

/-! ## Predicates used to state the claims -/

/-- The responses `cid.GetAttributeValue` gives: a value and a found flag without error, or,
on its failing path, the empty value and found = false together with the error. -/
def AttributeValue.fromLibrary (a : AttributeValue) : Prop :=
  a.err = none ∨ (a.value = "" ∧ a.found = false)

/-- The collection a store call addresses. -/
def Access.collection : Access → String
  | .get c _ => c
  | .put c _ _ => c

/-- The bytes `value` are the serialization of a product record with docType "product", the
non-empty name `key`, non-empty color and owner, and price > 0. -/
def validProduct (json : Json) (key : String) (value : Bytes) : Prop :=
  ∃ r : product, json.MarshalProduct r = .ok value ∧ r.ObjectType = "product" ∧
    r.Name = key ∧ r.Name ≠ "" ∧ r.Color ≠ "" ∧ r.Owner ≠ "" ∧ 0 < r.Price

/-- Every value held in "collectionProducts" is a valid product stored under its name. -/
def productsValid (json : Json) (l : Ledger) : Prop :=
  ∀ key value, l.data "collectionProducts" key = some value → validProduct json key value

/-! ## Auxiliary facts -/

/-- An empty string is one of length zero. -/
theorem length_eq_zero_iff (s : String) : s.length = 0 ↔ s = "" := by
  constructor
  · intro h
    cases s with
    | mk d =>
      have : d = [] := List.length_eq_zero.mp h
      subst this
      rfl
  · intro h
    subst h
    rfl

/-- A read never changes what the store holds. -/
theorem GetPrivateData_data (stub : Stub) (c k : String) (l : Ledger) :
    (GetPrivateData stub c k l).2.data = l.data := by
  unfold GetPrivateData
  split <;> rfl

/-- A failed write leaves the contents of the store as they were. -/
theorem PutPrivateData_error_data (stub : Stub) (c k : String) (v : Bytes) (l : Ledger)
    (e : String) (h : (PutPrivateData stub c k v l).1 = some e) :
    (PutPrivateData stub c k v l).2.data = l.data := by
  unfold PutPrivateData at h ⊢
  split <;> simp_all

/-- The manufacturer branch returns early only with an error response, and then the store
holds what it held. -/
theorem addProductAsManufacturer_error (json : Json) (stub : Stub)
    (inp : productTransientInput) (l : Ledger) (r : Response × Ledger)
    (h : addProductAsManufacturer json stub inp l = .error r) :
    r.1.Status = shim.ERROR ∧ r.2.data = l.data := by
  unfold addProductAsManufacturer at h
  rcases hg : stub.getFailure "collectionProducts" inp.Name with _ | e <;>
  rcases hd : l.data "collectionProducts" inp.Name with _ | v <;>
  simp only [GetPrivateData, hg, hd] at h
  · rcases hm : json.MarshalProduct ⟨"product", inp.Name, inp.Color, inp.Owner, inp.Price⟩
      with e | b
    · simp only [hm] at h
      cases h
      exact ⟨rfl, rfl⟩
    · simp only [hm] at h
      rcases hp : stub.putFailure "collectionProducts" inp.Name b with _ | e <;>
      simp [PutPrivateData, hp] at h
      cases h
      exact ⟨rfl, rfl⟩
  all_goals
    cases h
    exact ⟨rfl, rfl⟩

/-- Shape of `addProduct`: either it stops with an error before any store call, or the
request passed every check up to the organization test and the result is that of the
organization branch. -/
theorem addProduct_cases (json : Json) (stub : Stub) (args : List String) (l : Ledger) :
    (∃ msg, addProduct json stub args l = (shim.Error msg, l)) ∨
    (∃ transMap raw inp id mspid,
      args.length = 4 ∧ stub.GetTransient = .ok transMap ∧ transMap "product" = some raw ∧
      raw.length ≠ 0 ∧ json.UnmarshalProduct raw = .ok inp ∧
      inp.Name.length ≠ 0 ∧ inp.Color.length ≠ 0 ∧ inp.Owner.length ≠ 0 ∧ 0 < inp.Price ∧
      stub.cidNew = .ok id ∧ id.GetMSPID = .ok mspid ∧
      addProduct json stub args l =
        if mspid = "ManufacturerMSP" then
          match addProductAsManufacturer json stub inp l with
          | .error r => r
          | .ok l1 => (shim.Success [], l1)
        else (shim.Success [], l)) := by
  unfold addProduct
  repeat' split
  all_goals first
    | exact Or.inl ⟨_, rfl⟩
    | (refine Or.inr ⟨_, _, _, _, _, by omega, ‹_›, ‹_›, ‹_›, ‹_›, ‹_›, ‹_›, ‹_›, by omega,
        ‹_›, ‹_›, ?_⟩
       simp [*])

/-- An `addProduct` that does not answer with success leaves the contents of the store as
they were. -/
theorem addProduct_error_data (json : Json) (stub : Stub) (args : List String) (l : Ledger)
    (herr : (addProduct json stub args l).1.Status ≠ shim.OK) :
    (addProduct json stub args l).2.data = l.data := by
  rcases addProduct_cases json stub args l with ⟨msg, h⟩ | ⟨_, _, inp, _, mspid, _, _, _,
    _, _, _, _, _, _, _, _, h⟩
  · rw [h]
  · rw [h] at herr ⊢
    by_cases hm : mspid = "ManufacturerMSP"
    · rw [if_pos hm] at herr ⊢
      rcases hb : addProductAsManufacturer json stub inp l with r | l1
      · exact (addProductAsManufacturer_error json stub inp l r hb).2
      · rw [hb] at herr
        exact absurd rfl herr
    · rw [if_neg hm]

/-- Shape of `addOrgDetails`: either it stops with an error before any store call, or the
request passed every check, the attribute selected "collection1PrivateProducts", the record
was serialized and the result is that of the one write. -/
theorem addOrgDetails_cases (json : Json) (stub : Stub) (args : List String) (l : Ledger) :
    (∃ msg, addOrgDetails json stub args l = (shim.Error msg, l)) ∨
    (∃ transMap raw inp b,
      args.length = 3 ∧ stub.GetTransient = .ok transMap ∧ transMap "orgDetails" = some raw ∧
      raw.length ≠ 0 ∧ json.UnmarshalOrg raw = .ok inp ∧
      inp.Name.length ≠ 0 ∧ inp.Desc.length ≠ 0 ∧ 0 < inp.Size ∧
      (stub.cidGetAttributeValue "pID").err = none ∧
      (stub.cidGetAttributeValue "pID").value = "GRP1" ∧
      json.MarshalOrg ⟨"org", inp.Name, inp.Desc, inp.Size⟩ = .ok b ∧
      addOrgDetails json stub args l =
        match PutPrivateData stub "collection1PrivateProducts" inp.Name b l with
        | (some err, l1) => (shim.Error err, l1)
        | (none, l1) => (shim.Success [], l1)) := by
  unfold addOrgDetails
  repeat' split
  all_goals first
    | exact Or.inl ⟨_, rfl⟩
    | skip
  rename_i hlen _ transMap htrans _ raw hkey hraw _ inp hdec hn hd hs
  dsimp only
  rcases he : (stub.cidGetAttributeValue "pID").err with _ | e
  · by_cases hv : (stub.cidGetAttributeValue "pID").value = "GRP1"
    · rcases hm : json.MarshalOrg ⟨"org", inp.Name, inp.Desc, inp.Size⟩ with e | b
      · exact Or.inl ⟨e, by simp [hv, hm]⟩
      · refine Or.inr ⟨transMap, raw, inp, b, by omega, htrans, hkey, hraw, hdec, hn, hd,
          by omega, rfl, hv, hm, ?_⟩
        simp [hv, hm]
    · exact Or.inl ⟨"Not a valid user", by simp [hv]⟩
  · exact Or.inl ⟨_, rfl⟩

/-- An `addOrgDetails` that does not answer with success leaves the contents of the store as
they were. -/
theorem addOrgDetails_error_data (json : Json) (stub : Stub) (args : List String)
    (l : Ledger) (herr : (addOrgDetails json stub args l).1.Status ≠ shim.OK) :
    (addOrgDetails json stub args l).2.data = l.data := by
  rcases addOrgDetails_cases json stub args l with ⟨msg, h⟩ | ⟨_, _, inp, b, _, _, _, _, _,
    _, _, _, _, _, _, h⟩
  · rw [h]
  · rw [h] at herr ⊢
    rcases hp : stub.putFailure "collection1PrivateProducts" inp.Name b with _ | e
    · simp [PutPrivateData, hp, shim.Success] at herr
    · simp [PutPrivateData, hp]

/-- Operation `readProduct` never changes what the store holds. -/
theorem readProduct_data (stub : Stub) (args : List String) (l : Ledger) :
    (readProduct stub args l).2.data = l.data := by
  unfold readProduct
  split
  · rfl
  · generalize args.get ⟨0, by omega⟩ = name
    rcases hg : stub.getFailure "collectionProducts" name with _ | e <;>
    rcases hd : l.data "collectionProducts" name with _ | v <;>
    simp [GetPrivateData, hg, hd]

/-- Operation `readPrivateDetails` never changes what the store holds. -/
theorem readPrivateDetails_data (stub : Stub) (args : List String) (l : Ledger) :
    (readPrivateDetails stub args l).2.data = l.data := by
  unfold readPrivateDetails
  split
  · rfl
  · generalize args.get ⟨0, by omega⟩ = name
    by_cases hv : (stub.cidGetAttributeValue "pID").value = "GRP1"
    · rcases hg : stub.getFailure "collection1PrivateProducts" name with _ | e <;>
      rcases hd : l.data "collection1PrivateProducts" name with _ | v <;>
      simp [GetPrivateData, hg, hd, hv]
    · simp [hv]

/-- When the manufacturer branch falls through, the record with docType "product" and the
payload's fields was serialized and written under the payload's name. -/
theorem addProductAsManufacturer_ok (json : Json) (stub : Stub)
    (inp : productTransientInput) (l l2 : Ledger)
    (h : addProductAsManufacturer json stub inp l = .ok l2) :
    ∃ b, json.MarshalProduct ⟨"product", inp.Name, inp.Color, inp.Owner, inp.Price⟩ = .ok b ∧
      l2.data = fun c k =>
        if c = "collectionProducts" ∧ k = inp.Name then some b else l.data c k := by
  unfold addProductAsManufacturer at h
  rcases hg : stub.getFailure "collectionProducts" inp.Name with _ | e <;>
  rcases hd : l.data "collectionProducts" inp.Name with _ | v <;>
  simp only [GetPrivateData, hg, hd] at h
  · rcases hm : json.MarshalProduct ⟨"product", inp.Name, inp.Color, inp.Owner, inp.Price⟩
      with e | b
    · simp only [hm] at h
      cases h
    · simp only [hm] at h
      rcases hp : stub.putFailure "collectionProducts" inp.Name b with _ | e <;>
      simp [PutPrivateData, hp] at h
      subst h
      exact ⟨b, rfl, rfl⟩
  all_goals cases h

/-- What `addProduct` does to the contents of the store: nothing, or one write of the
serialized record, built from a payload that passed validation, under the payload's name. -/
theorem addProduct_data (json : Json) (stub : Stub) (args : List String) (l : Ledger) :
    (addProduct json stub args l).2.data = l.data ∨
    (∃ transMap raw inp b,
      stub.GetTransient = .ok transMap ∧ transMap "product" = some raw ∧
      json.UnmarshalProduct raw = .ok inp ∧
      inp.Name.length ≠ 0 ∧ inp.Color.length ≠ 0 ∧ inp.Owner.length ≠ 0 ∧ 0 < inp.Price ∧
      json.MarshalProduct ⟨"product", inp.Name, inp.Color, inp.Owner, inp.Price⟩ = .ok b ∧
      (addProduct json stub args l).2.data = fun c k =>
        if c = "collectionProducts" ∧ k = inp.Name then some b else l.data c k) := by
  rcases addProduct_cases json stub args l with ⟨msg, h⟩ | ⟨tm, raw, inp, _, mspid, _, h1, h2,
    _, h3, h4, h5, h6, h7, _, _, h⟩
  · rw [h]
    exact Or.inl rfl
  · by_cases hm : mspid = "ManufacturerMSP"
    · rw [if_pos hm] at h
      rcases hb : addProductAsManufacturer json stub inp l with r | l1
      · rw [hb] at h
        rw [h]
        exact Or.inl (addProductAsManufacturer_error json stub inp l r hb).2
      · rw [hb] at h
        obtain ⟨b, hmar, hdata⟩ := addProductAsManufacturer_ok json stub inp l l1 hb
        refine Or.inr ⟨tm, raw, inp, b, h1, h2, h3, h4, h5, h6, h7, hmar, ?_⟩
        rw [h]
        exact hdata
    · rw [if_neg hm] at h
      rw [h]
      exact Or.inl rfl

/-- What `addOrgDetails` does to the contents of the store: nothing, or one write under the
payload's name in "collection1PrivateProducts". -/
theorem addOrgDetails_data (json : Json) (stub : Stub) (args : List String) (l : Ledger) :
    (addOrgDetails json stub args l).2.data = l.data ∨
    (∃ transMap raw inp b,
      stub.GetTransient = .ok transMap ∧ transMap "orgDetails" = some raw ∧
      json.UnmarshalOrg raw = .ok inp ∧
      (addOrgDetails json stub args l).2.data = fun c k =>
        if c = "collection1PrivateProducts" ∧ k = inp.Name then some b else l.data c k) := by
  rcases addOrgDetails_cases json stub args l with ⟨msg, h⟩ | ⟨tm, raw, inp, b, _, h1, h2, _,
    h3, _, _, _, _, _, _, h⟩
  · rw [h]
    exact Or.inl rfl
  · rcases hp : stub.putFailure "collection1PrivateProducts" inp.Name b with _ | e
    · refine Or.inr ⟨tm, raw, inp, b, h1, h2, h3, ?_⟩
      rw [h]
      simp [PutPrivateData, hp]
    · rw [h]
      simp [PutPrivateData, hp]

/-- The invariant on "collectionProducts" only depends on what the store holds. -/
theorem productsValid_of_data_eq (json : Json) (l l1 : Ledger) (h : l1.data = l.data)
    (hinv : productsValid json l) : productsValid json l1 := by
  intro key value hk
  rw [h] at hk
  exact hinv key value hk

/-- Operation `addOrgDetails` never changes what "collectionProducts" holds. -/
theorem addOrgDetails_products (json : Json) (stub : Stub) (args : List String) (l : Ledger)
    (k : String) :
    (addOrgDetails json stub args l).2.data "collectionProducts" k
      = l.data "collectionProducts" k := by
  rcases addOrgDetails_data json stub args l with h | ⟨_, _, inp, b, _, _, _, h⟩
  · rw [h]
  · rw [h]
    simp

/-- Whatever `addProduct` newly stores in "collectionProducts" is a valid product stored under
its name, with docType "product". -/
theorem addProduct_written_valid (json : Json) (stub : Stub) (args : List String)
    (l : Ledger) (key : String) (value : Bytes)
    (hafter : (addProduct json stub args l).2.data "collectionProducts" key = some value)
    (hbefore : l.data "collectionProducts" key ≠ some value) :
    validProduct json key value := by
  rcases addProduct_data json stub args l with h | ⟨_, _, inp, b, _, _, _, h4, h5, h6, h7,
    hmar, h⟩
  · rw [h] at hafter
    exact absurd hafter hbefore
  · rw [h] at hafter
    by_cases hk : key = inp.Name
    · subst hk
      simp at hafter
      subst hafter
      exact ⟨⟨"product", inp.Name, inp.Color, inp.Owner, inp.Price⟩, hmar, rfl, rfl,
        fun e => h4 ((length_eq_zero_iff _).mpr e),
        fun e => h5 ((length_eq_zero_iff _).mpr e),
        fun e => h6 ((length_eq_zero_iff _).mpr e), h7⟩
    · simp [hk] at hafter
      exact absurd hafter hbefore

/-- Operation `addProduct` keeps the invariant on "collectionProducts". -/
theorem addProduct_productsValid (json : Json) (stub : Stub) (args : List String)
    (l : Ledger) (hinv : productsValid json l) :
    productsValid json (addProduct json stub args l).2 := by
  intro key value hk
  by_cases hb : l.data "collectionProducts" key = some value
  · exact hinv key value hb
  · exact addProduct_written_valid json stub args l key value hk hb

/-- Operation `addOrgDetails` keeps the invariant on "collectionProducts". -/
theorem addOrgDetails_productsValid (json : Json) (stub : Stub) (args : List String)
    (l : Ledger) (hinv : productsValid json l) :
    productsValid json (addOrgDetails json stub args l).2 := by
  intro key value hk
  rw [addOrgDetails_products] at hk
  exact hinv key value hk

/-! ## Claims -/

/-- C1. Round trip of `addProduct` and `readProduct`: when "collectionProducts" has no entry
under `n`, the transient "product" payload is non-empty and decodes to a non-empty name `n`,
non-empty color `c`, non-empty owner `o` and price `p > 0`, the argument list has length 4,
the caller's organization is "ManufacturerMSP" and no store call fails, `addProduct` returns
success with an empty payload, and a following `readProduct [n]` (by any caller) returns
success whose payload is `b`, the serialization of the record with docType "product", name
`n`, color `c`, owner `o` and price `p`. -/
theorem addProduct_then_readProduct
    (json : Json) (stub stub2 : Stub) (args : List String) (l : Ledger)
    (transMap : String → Option Bytes) (raw : Bytes) (docType n c o : String) (p : Int)
    (id : ClientID) (b : Bytes)
    (hargs : args.length = 4)
    (htrans : stub.GetTransient = .ok transMap)
    (hkey : transMap "product" = some raw)
    (hraw : raw ≠ [])
    (hdec : json.UnmarshalProduct raw = .ok ⟨docType, n, c, o, p⟩)
    (hn : n ≠ "") (hc : c ≠ "") (ho : o ≠ "") (hp : 0 < p)
    (hid : stub.cidNew = .ok id) (hmsp : id.GetMSPID = .ok "ManufacturerMSP")
    (habsent : l.data "collectionProducts" n = none)
    (hget : stub.getFailure "collectionProducts" n = none)
    (hmarshal : json.MarshalProduct ⟨"product", n, c, o, p⟩ = .ok b)
    (hput : stub.putFailure "collectionProducts" n b = none)
    (hget2 : stub2.getFailure "collectionProducts" n = none) :
    (addProduct json stub args l).1 = shim.Success [] ∧
    (readProduct stub2 [n] (addProduct json stub args l).2).1 = shim.Success b := by
  have hn0 : n.length ≠ 0 := fun h => hn ((length_eq_zero_iff n).mp h)
  have hc0 : c.length ≠ 0 := fun h => hc ((length_eq_zero_iff c).mp h)
  have ho0 : o.length ≠ 0 := fun h => ho ((length_eq_zero_iff o).mp h)
  have hp0 : ¬ p ≤ 0 := not_le.mpr hp
  have hraw0 : raw.length ≠ 0 := fun h => hraw (List.length_eq_zero.mp h)
  simp [addProduct, addProductAsManufacturer, readProduct, GetPrivateData, PutPrivateData,
    hargs, htrans, hkey, hraw0, hdec, hn0, hc0, ho0, hp0, hid, hmsp, habsent, hget, hmarshal,
    hput, hget2]

/-- Witness of C1: the widget is added to an empty store by a manufacturer and read back by a
retailer. -/
theorem addProduct_then_readProduct_witness :
    (addProduct sampleJson manufacturerStub ["widget", "red", "alice", "10"] emptyLedger).1
      = shim.Success [] ∧
    (readProduct retailerStub ["widget"]
      (addProduct sampleJson manufacturerStub ["widget", "red", "alice", "10"] emptyLedger).2).1
      = shim.Success widgetRecord :=
  addProduct_then_readProduct sampleJson manufacturerStub retailerStub
    ["widget", "red", "alice", "10"] emptyLedger widgetTransient widgetPayload
    "" "widget" "red" "alice" 10 ⟨.ok "ManufacturerMSP"⟩ widgetRecord
    rfl rfl rfl (by decide) rfl (by decide) (by decide) (by decide) (by decide)
    rfl rfl rfl rfl rfl rfl rfl

/-- C2, as stated, fails: "collectionProducts" holds a value under "widget", a manufacturer
calls `addProduct` with 4 arguments and a valid payload named "widget", the store read fails,
and the error returned is the wrapped store error, not "This Product already exists: widget". -/
theorem addProduct_existing_name_counterexample :
    widgetLedger.data "collectionProducts" "widget" = some [7, 7] ∧
    unreadableStub.cidNew = .ok ⟨.ok "ManufacturerMSP"⟩ ∧
    unreadableStub.GetTransient = .ok widgetTransient ∧
    widgetTransient "product" = some widgetPayload ∧
    sampleJson.UnmarshalProduct widgetPayload = .ok ⟨"", "widget", "red", "alice", 10⟩ ∧
    (addProduct sampleJson unreadableStub ["widget", "red", "alice", "10"] widgetLedger).1
      = shim.Error "Failed to get Product: collection unavailable" ∧
    (addProduct sampleJson unreadableStub ["widget", "red", "alice", "10"] widgetLedger).1
      ≠ shim.Error ("This Product already exists: " ++ "widget") :=
  ⟨rfl, rfl, rfl, rfl, rfl, rfl, by decide⟩

/-- C2, amended. Create-once: when "collectionProducts" already holds a value under `n`, an
`addProduct` by a "ManufacturerMSP" caller with 4 arguments and a valid transient payload
named `n` returns an error and leaves the contents of the store as they were; the error is
"This Product already exists: " followed by `n` when the store read does not fail, and
"Failed to get Product: " followed by the store error when it does. -/
theorem addProduct_existing_name_rejected
    (json : Json) (stub : Stub) (args : List String) (l : Ledger)
    (transMap : String → Option Bytes) (raw : Bytes) (docType n c o : String) (p : Int)
    (id : ClientID) (existing : Bytes)
    (hargs : args.length = 4)
    (htrans : stub.GetTransient = .ok transMap)
    (hkey : transMap "product" = some raw)
    (hraw : raw ≠ [])
    (hdec : json.UnmarshalProduct raw = .ok ⟨docType, n, c, o, p⟩)
    (hn : n ≠ "") (hc : c ≠ "") (ho : o ≠ "") (hp : 0 < p)
    (hid : stub.cidNew = .ok id) (hmsp : id.GetMSPID = .ok "ManufacturerMSP")
    (hstored : l.data "collectionProducts" n = some existing) :
    (addProduct json stub args l).1.Status = shim.ERROR ∧
    (addProduct json stub args l).2.data = l.data ∧
    (stub.getFailure "collectionProducts" n = none →
      (addProduct json stub args l).1 = shim.Error ("This Product already exists: " ++ n)) ∧
    (∀ err, stub.getFailure "collectionProducts" n = some err →
      (addProduct json stub args l).1 = shim.Error ("Failed to get Product: " ++ err)) := by
  have hn0 : n.length ≠ 0 := fun h => hn ((length_eq_zero_iff n).mp h)
  have hc0 : c.length ≠ 0 := fun h => hc ((length_eq_zero_iff c).mp h)
  have ho0 : o.length ≠ 0 := fun h => ho ((length_eq_zero_iff o).mp h)
  have hp0 : ¬ p ≤ 0 := not_le.mpr hp
  have hraw0 : raw.length ≠ 0 := fun h => hraw (List.length_eq_zero.mp h)
  rcases hg : stub.getFailure "collectionProducts" n with _ | e <;>
  simp [addProduct, addProductAsManufacturer, GetPrivateData, hargs, htrans, hkey, hraw0,
    hdec, hn0, hc0, ho0, hp0, hid, hmsp, hstored, hg, shim.Error]

/-- Witness of amended C2: a second widget is rejected on a store that holds one. -/
theorem addProduct_existing_name_rejected_witness :
    (addProduct sampleJson manufacturerStub ["widget", "red", "alice", "10"] widgetLedger).1
      = shim.Error ("This Product already exists: " ++ "widget") ∧
    (addProduct sampleJson manufacturerStub ["widget", "red", "alice", "10"] widgetLedger).2.data
      = widgetLedger.data :=
  have h := addProduct_existing_name_rejected sampleJson manufacturerStub
    ["widget", "red", "alice", "10"] widgetLedger widgetTransient widgetPayload
    "" "widget" "red" "alice" 10 ⟨.ok "ManufacturerMSP"⟩ [7, 7]
    rfl rfl rfl (by decide) rfl (by decide) (by decide) (by decide) (by decide)
    rfl rfl rfl
  ⟨h.2.2.1 rfl, h.2.1⟩

/-- C3. An `addProduct` invocation whose decoded transient payload has price <= 0 or an
empty name, color or owner returns an error and issues no store call at all: the store and
its call log are as before, whatever the arguments, the caller and the store. -/
theorem addProduct_invalid_field_rejected
    (json : Json) (stub : Stub) (args : List String) (l : Ledger)
    (transMap : String → Option Bytes) (raw : Bytes) (inp : productTransientInput)
    (htrans : stub.GetTransient = .ok transMap)
    (hkey : transMap "product" = some raw)
    (hdec : json.UnmarshalProduct raw = .ok inp)
    (hbad : inp.Price ≤ 0 ∨ inp.Name = "" ∨ inp.Color = "" ∨ inp.Owner = "") :
    (addProduct json stub args l).1.Status = shim.ERROR ∧
    (addProduct json stub args l).2 = l := by
  have hbad0 : inp.Price ≤ 0 ∨ inp.Name.length = 0 ∨ inp.Color.length = 0 ∨
      inp.Owner.length = 0 := by
    rcases hbad with h | h | h | h
    · exact Or.inl h
    · exact Or.inr (Or.inl ((length_eq_zero_iff _).mpr h))
    · exact Or.inr (Or.inr (Or.inl ((length_eq_zero_iff _).mpr h)))
    · exact Or.inr (Or.inr (Or.inr ((length_eq_zero_iff _).mpr h)))
  rcases addProduct_cases json stub args l with ⟨msg, h⟩ | ⟨tm, raw1, inp1, _, _, _, h1, h2,
    _, h3, h4, h5, h6, h7, _⟩
  · rw [h]
    exact ⟨rfl, rfl⟩
  · exfalso
    rw [htrans] at h1
    cases h1
    rw [hkey] at h2
    cases h2
    rw [hdec] at h3
    cases h3
    omega

/-- Witness of C3: a payload with an empty name and price 0 is rejected untouched. -/
theorem addProduct_invalid_field_rejected_witness :
    (addProduct
      { sampleJson with UnmarshalProduct := fun _ => .ok ⟨"", "", "red", "alice", 0⟩ }
      manufacturerStub ["widget", "red", "alice", "10"] widgetLedger).1.Status = shim.ERROR ∧
    (addProduct
      { sampleJson with UnmarshalProduct := fun _ => .ok ⟨"", "", "red", "alice", 0⟩ }
      manufacturerStub ["widget", "red", "alice", "10"] widgetLedger).2 = widgetLedger :=
  addProduct_invalid_field_rejected
    { sampleJson with UnmarshalProduct := fun _ => .ok ⟨"", "", "red", "alice", 0⟩ }
    manufacturerStub ["widget", "red", "alice", "10"] widgetLedger widgetTransient
    widgetPayload ⟨"", "", "red", "alice", 0⟩ rfl rfl rfl (Or.inl (by decide))

/-- C4. An `addProduct` invocation by a caller whose organization is not identified as
"ManufacturerMSP" persists nothing: the store holds what it held and no store call is
issued, for every argument list, transient payload and store. -/
theorem addProduct_other_organization_writes_nothing
    (json : Json) (stub : Stub) (args : List String) (l : Ledger)
    (horg : ∀ id, stub.cidNew = .ok id → id.GetMSPID ≠ .ok "ManufacturerMSP") :
    (addProduct json stub args l).2.data = l.data ∧
    (addProduct json stub args l).2.log = l.log := by
  rcases addProduct_cases json stub args l with ⟨msg, h⟩ | ⟨_, _, _, id, mspid, _, _, _,
    _, _, _, _, _, _, hid, hmsp, h⟩
  · rw [h]
    exact ⟨rfl, rfl⟩
  · have hne : mspid ≠ "ManufacturerMSP" := by
      intro heq
      subst heq
      exact horg id hid hmsp
    rw [h, if_neg hne]
    exact ⟨rfl, rfl⟩

/-- Witness of C4: a retailer's valid request leaves the empty store empty. -/
theorem addProduct_other_organization_writes_nothing_witness :
    (addProduct sampleJson retailerStub ["widget", "red", "alice", "10"] emptyLedger).2.data
      = emptyLedger.data ∧
    (addProduct sampleJson retailerStub ["widget", "red", "alice", "10"] emptyLedger).2.log
      = emptyLedger.log :=
  addProduct_other_organization_writes_nothing sampleJson retailerStub
    ["widget", "red", "alice", "10"] emptyLedger
    (fun id hid => by
      have h : id = ⟨.ok "RetailerMSP"⟩ := (Except.ok.inj hid).symm
      subst h
      intro hm
      exact absurd (Except.ok.inj hm) (by decide))

/-- C5. For an `addProduct` invocation with exactly 4 arguments and a valid transient payload
(non-empty name, color and owner, price > 0) by a caller whose organization is not
"ManufacturerMSP", the authorization failure is not returned: the result is success with an
empty payload. -/
theorem addProduct_other_organization_reports_success
    (json : Json) (stub : Stub) (args : List String) (l : Ledger)
    (transMap : String → Option Bytes) (raw : Bytes) (docType n c o : String) (p : Int)
    (id : ClientID) (mspid : String)
    (hargs : args.length = 4)
    (htrans : stub.GetTransient = .ok transMap)
    (hkey : transMap "product" = some raw)
    (hraw : raw ≠ [])
    (hdec : json.UnmarshalProduct raw = .ok ⟨docType, n, c, o, p⟩)
    (hn : n ≠ "") (hc : c ≠ "") (ho : o ≠ "") (hp : 0 < p)
    (hid : stub.cidNew = .ok id) (hmsp : id.GetMSPID = .ok mspid)
    (hother : mspid ≠ "ManufacturerMSP") :
    (addProduct json stub args l).1 = shim.Success [] := by
  have hn0 : n.length ≠ 0 := fun h => hn ((length_eq_zero_iff n).mp h)
  have hc0 : c.length ≠ 0 := fun h => hc ((length_eq_zero_iff c).mp h)
  have ho0 : o.length ≠ 0 := fun h => ho ((length_eq_zero_iff o).mp h)
  have hp0 : ¬ p ≤ 0 := not_le.mpr hp
  have hraw0 : raw.length ≠ 0 := fun h => hraw (List.length_eq_zero.mp h)
  simp [addProduct, hargs, htrans, hkey, hraw0, hdec, hn0, hc0, ho0, hp0, hid, hmsp, hother]

/-- Witness of C5: the retailer's valid request is answered with success. -/
theorem addProduct_other_organization_reports_success_witness :
    (addProduct sampleJson retailerStub ["widget", "red", "alice", "10"] emptyLedger).1
      = shim.Success [] :=
  addProduct_other_organization_reports_success sampleJson retailerStub
    ["widget", "red", "alice", "10"] emptyLedger widgetTransient widgetPayload
    "" "widget" "red" "alice" 10 ⟨.ok "RetailerMSP"⟩ "RetailerMSP"
    rfl rfl rfl (by decide) rfl (by decide) (by decide) (by decide) (by decide)
    rfl rfl (by decide)

/-- C6. When "collectionProducts" has no entry under `n` and the store read does not fail,
`readProduct [n]` returns the not-found error with message
`{"Error":"Marble does not exist: n"}`; the result is neither a success nor the
store-failure error "Failed to get state for n". -/
theorem readProduct_absent_not_found
    (stub : Stub) (n : String) (l : Ledger)
    (habsent : l.data "collectionProducts" n = none)
    (hget : stub.getFailure "collectionProducts" n = none) :
    (readProduct stub [n] l).1
      = shim.Error ("\x7b\"Error\":\"Marble does not exist: " ++ n ++ "\"\x7d") ∧
    (readProduct stub [n] l).1.Status ≠ shim.OK ∧
    (readProduct stub [n] l).1
      ≠ shim.Error ("\x7b\"Error\":\"Failed to get state for " ++ n ++ "\"\x7d") := by
  have h : (readProduct stub [n] l).1
      = shim.Error ("\x7b\"Error\":\"Marble does not exist: " ++ n ++ "\"\x7d") := by
    simp [readProduct, GetPrivateData, habsent, hget]
  refine ⟨h, ?_, ?_⟩
  · rw [h]
    simp [shim.Error, shim.ERROR, shim.OK]
  · rw [h]
    intro heq
    have hm := congrArg (fun r => r.Message.data) heq
    simp [shim.Error] at hm

/-- Witness of C6: the widget is not found in the empty store. -/
theorem readProduct_absent_not_found_witness :
    (readProduct retailerStub ["widget"] emptyLedger).1
      = shim.Error "\x7b\"Error\":\"Marble does not exist: widget\"\x7d" :=
  (readProduct_absent_not_found retailerStub "widget" emptyLedger rfl rfl).1

/-- C7, as stated, fails: "collectionProducts" holds bytes under "widget", the store read
fails, and `readProduct ["widget"]` returns the store-failure error instead of the bytes. -/
theorem readProduct_stored_counterexample :
    widgetLedger.data "collectionProducts" "widget" = some [7, 7] ∧
    (readProduct unreadableStub ["widget"] widgetLedger).1
      = shim.Error "\x7b\"Error\":\"Failed to get state for widget\"\x7d" ∧
    (readProduct unreadableStub ["widget"] widgetLedger).1 ≠ shim.Success [7, 7] :=
  ⟨rfl, rfl, by decide⟩

/-- C7, amended. When "collectionProducts" holds bytes `b` under `n` and the store read does
not fail, `readProduct [n]` returns success whose payload is exactly `b`, for arbitrary `b`;
the operation has no access to the codec, so nothing is decoded or serialized again. -/
theorem readProduct_returns_stored_bytes
    (stub : Stub) (n : String) (l : Ledger) (b : Bytes)
    (hstored : l.data "collectionProducts" n = some b)
    (hget : stub.getFailure "collectionProducts" n = none) :
    (readProduct stub [n] l).1 = shim.Success b := by
  simp [readProduct, GetPrivateData, hstored, hget]

/-- Witness of amended C7: bytes that are no product record are returned as stored. -/
theorem readProduct_returns_stored_bytes_witness :
    (readProduct retailerStub ["widget"] widgetLedger).1 = shim.Success [7, 7] :=
  readProduct_returns_stored_bytes retailerStub "widget" widgetLedger [7, 7] rfl rfl

/-- C8. Fail-closed dispatch: for a function name other than "addProduct", "readProduct",
"addOrgDetails" and "readPrivateDetails", `Invoke` returns the error "Received unknown
function invocation" and leaves the store and its call log untouched, whatever the
arguments, transient map, caller and store; for each of the four names `Invoke` returns
exactly the result of the handler of that name on the same arguments. -/
theorem Invoke_dispatch (json : Json) (stub : Stub) (l : Ledger) :
    (stub.function ≠ "addProduct" → stub.function ≠ "readProduct" →
      stub.function ≠ "addOrgDetails" → stub.function ≠ "readPrivateDetails" →
      Invoke json stub l = (shim.Error "Received unknown function invocation", l)) ∧
    (stub.function = "addProduct" → Invoke json stub l = addProduct json stub stub.args l) ∧
    (stub.function = "readProduct" → Invoke json stub l = readProduct stub stub.args l) ∧
    (stub.function = "addOrgDetails" →
      Invoke json stub l = addOrgDetails json stub stub.args l) ∧
    (stub.function = "readPrivateDetails" →
      Invoke json stub l = readPrivateDetails stub stub.args l) := by
  refine ⟨?_, ?_, ?_, ?_, ?_⟩
  · intro h1 h2 h3 h4
    simp [Invoke, GetFunctionAndParameters, h1, h2, h3, h4]
  all_goals
    intro h
    simp [Invoke, GetFunctionAndParameters, h]

/-- Witness of C8: "deleteProduct" is refused without touching the store. -/
theorem Invoke_dispatch_witness :
    Invoke sampleJson deleteStub widgetLedger
      = (shim.Error "Received unknown function invocation", widgetLedger) :=
  (Invoke_dispatch sampleJson deleteStub widgetLedger).1
    (by decide) (by decide) (by decide) (by decide)

/-- C9. Arity is checked first in all four operations: when the number of positional
arguments differs from the required one (4 for `addProduct`, 3 for `addOrgDetails`, 1 for
`readProduct` and `readPrivateDetails`), the operation returns an error whose message begins
"Incorrect number of arguments", whatever the transient map, the caller and the store, and
neither the store nor its call log changes. -/
theorem arity_checked_first (json : Json) (stub : Stub) (args : List String) (l : Ledger) :
    (args.length ≠ 4 → addProduct json stub args l =
      (shim.Error ("Incorrect number of arguments" ++ "."), l)) ∧
    (args.length ≠ 3 → addOrgDetails json stub args l =
      (shim.Error ("Incorrect number of arguments" ++ "."), l)) ∧
    (args.length ≠ 1 → readProduct stub args l =
      (shim.Error ("Incorrect number of arguments" ++
        ". Expecting name of the product to query"), l)) ∧
    (args.length ≠ 1 → readPrivateDetails stub args l =
      (shim.Error ("Incorrect number of arguments" ++
        ". Expecting name of the Orgamization to query"), l)) := by
  refine ⟨?_, ?_, ?_, ?_⟩
  · intro h
    unfold addProduct
    rw [if_pos h]
    rfl
  · intro h
    unfold addOrgDetails
    rw [if_pos h]
    rfl
  · intro h
    unfold readProduct
    rw [dif_pos h]
    rfl
  · intro h
    unfold readPrivateDetails
    rw [dif_pos h]
    rfl

/-- Witness of C9: `addProduct` with one argument and a valid payload is an arity error. -/
theorem arity_checked_first_witness :
    addProduct sampleJson manufacturerStub ["widget"] emptyLedger =
      (shim.Error "Incorrect number of arguments.", emptyLedger) :=
  (arity_checked_first sampleJson manufacturerStub ["widget"] emptyLedger).1 (by decide)

/-- C10. No partial writes on error: for every invocation through `Invoke` (every function
name, argument list, transient map, caller identity, oracle response and store, a failed
store put leaving the contents unchanged), if the result is not a success then the store
holds after the invocation what it held before. Every error response has status
`shim.ERROR`, which differs from `shim.OK`. -/
theorem Invoke_error_leaves_store (json : Json) (stub : Stub) (l : Ledger)
    (herr : (Invoke json stub l).1.Status ≠ shim.OK) :
    (Invoke json stub l).2.data = l.data := by
  unfold Invoke GetFunctionAndParameters at herr ⊢
  dsimp only at herr ⊢
  split_ifs at herr ⊢
  · exact addProduct_error_data json stub stub.args l herr
  · exact readProduct_data stub stub.args l
  · exact addOrgDetails_error_data json stub stub.args l herr
  · exact readPrivateDetails_data stub stub.args l
  · rfl

/-- Witness of C10: a manufacturer's valid request whose write is refused returns the
store's error and the empty store stays empty. -/
theorem Invoke_error_leaves_store_witness :
    (Invoke sampleJson unwritableStub emptyLedger).1 = shim.Error "write refused" ∧
    (Invoke sampleJson unwritableStub emptyLedger).2.data = emptyLedger.data :=
  ⟨rfl, Invoke_error_leaves_store sampleJson unwritableStub emptyLedger (by decide)⟩

/-- C11, evaluated on the code. The attribute value "GRP2" is rejected by `addOrgDetails`
and by `readPrivateDetails` with "Not a valid user"; every `addOrgDetails` that succeeds was
called with the attribute value "GRP1" and changes no collection other than
"collection1PrivateProducts". So no two distinct attribute values are accepted and routed to
two distinct collections. -/
theorem addOrgDetails_accepts_one_attribute_value :
    addOrgDetails orgJson grp2Stub ["OrgX", "test org", "5"] emptyLedger
      = (shim.Error "Not a valid user", emptyLedger) ∧
    readPrivateDetails grp2Stub ["OrgX"] orgLedger
      = (shim.Error "Not a valid user", orgLedger) ∧
    (∀ (json : Json) (stub : Stub) (args : List String) (l : Ledger),
      (addOrgDetails json stub args l).1.Status = shim.OK →
      (stub.cidGetAttributeValue "pID").value = "GRP1" ∧
      ∀ c k, c ≠ "collection1PrivateProducts" →
        (addOrgDetails json stub args l).2.data c k = l.data c k) := by
  refine ⟨rfl, rfl, ?_⟩
  intro json stub args l hok
  rcases addOrgDetails_cases json stub args l with ⟨msg, h⟩ | ⟨_, _, inp, b, _, _, _, _, _,
    _, _, _, _, hv, _, h⟩
  · rw [h] at hok
    simp [shim.Error, shim.ERROR, shim.OK] at hok
  · refine ⟨hv, ?_⟩
    intro c k hc
    rw [h]
    rcases hp : stub.putFailure "collection1PrivateProducts" inp.Name b with _ | e <;>
    simp [PutPrivateData, hp, hc]

/-- C12. Attribute routing as coded. When `addOrgDetails` reaches the routing step (3
arguments, valid payload, attribute lookup without error) it writes to
"collection1PrivateProducts" if the "pID" value is "GRP1" and otherwise rejects with "Not a
valid user" without a store call; `readPrivateDetails` with one argument reads from
"collection1PrivateProducts" if the value is "GRP1" and otherwise rejects with "Not a valid
user" without a store call (the empty value of a missing attribute included). For no
attribute value, and no input at all, does either operation issue a store call on
"collection2PrivateProducts". -/
theorem attribute_routing_as_coded (json : Json) (stub : Stub) (l : Ledger) :
    (∀ args transMap raw inp, args.length = 3 → stub.GetTransient = .ok transMap →
      transMap "orgDetails" = some raw → raw ≠ [] → json.UnmarshalOrg raw = .ok inp →
      inp.Name ≠ "" → inp.Desc ≠ "" → 0 < inp.Size →
      (stub.cidGetAttributeValue "pID").err = none →
      ((stub.cidGetAttributeValue "pID").value = "GRP1" →
        ∀ b, json.MarshalOrg ⟨"org", inp.Name, inp.Desc, inp.Size⟩ = .ok b →
        (addOrgDetails json stub args l).2.log
          = l.log ++ [Access.put "collection1PrivateProducts" inp.Name b]) ∧
      ((stub.cidGetAttributeValue "pID").value ≠ "GRP1" →
        addOrgDetails json stub args l = (shim.Error "Not a valid user", l))) ∧
    (∀ n,
      ((stub.cidGetAttributeValue "pID").value = "GRP1" →
        (readPrivateDetails stub [n] l).2.log
          = l.log ++ [Access.get "collection1PrivateProducts" n]) ∧
      ((stub.cidGetAttributeValue "pID").value ≠ "GRP1" →
        readPrivateDetails stub [n] l = (shim.Error "Not a valid user", l))) ∧
    (∀ args, ∃ calls, (addOrgDetails json stub args l).2.log = l.log ++ calls ∧
      ∀ a ∈ calls, a.collection ≠ "collection2PrivateProducts") ∧
    (∀ args, ∃ calls, (readPrivateDetails stub args l).2.log = l.log ++ calls ∧
      ∀ a ∈ calls, a.collection ≠ "collection2PrivateProducts") := by
  refine ⟨?_, ?_, ?_, ?_⟩
  · intro args transMap raw inp hargs htrans hkey hraw hdec hn hd hs herr
    have hn0 : inp.Name.length ≠ 0 := fun h => hn ((length_eq_zero_iff _).mp h)
    have hd0 : inp.Desc.length ≠ 0 := fun h => hd ((length_eq_zero_iff _).mp h)
    have hs0 : ¬ inp.Size ≤ 0 := not_le.mpr hs
    have hraw0 : raw.length ≠ 0 := fun h => hraw (List.length_eq_zero.mp h)
    constructor
    · intro hv b hb
      rcases hp : stub.putFailure "collection1PrivateProducts" inp.Name b with _ | e <;>
      simp [addOrgDetails, PutPrivateData, hargs, htrans, hkey, hraw0, hdec, hn0, hd0, hs0,
        herr, hv, hb, hp]
    · intro hv
      simp [addOrgDetails, hargs, htrans, hkey, hraw0, hdec, hn0, hd0, hs0, herr, hv]
  · intro n
    constructor
    · intro hv
      rcases hg : stub.getFailure "collection1PrivateProducts" n with _ | e <;>
      rcases hd : l.data "collection1PrivateProducts" n with _ | v <;>
      simp [readPrivateDetails, GetPrivateData, hv, hg, hd]
    · intro hv
      simp [readPrivateDetails, hv]
  · intro args
    rcases addOrgDetails_cases json stub args l with ⟨msg, h⟩ | ⟨_, _, inp, b, _, _, _, _, _,
      _, _, _, _, _, _, h⟩
    · exact ⟨[], by rw [h]; simp, by simp⟩
    · refine ⟨[Access.put "collection1PrivateProducts" inp.Name b], ?_, ?_⟩
      · rw [h]
        rcases hp : stub.putFailure "collection1PrivateProducts" inp.Name b with _ | e <;>
        simp [PutPrivateData, hp]
      · intro a ha
        rw [List.mem_singleton] at ha
        subst ha
        simp [Access.collection]
  · intro args
    unfold readPrivateDetails
    split
    · exact ⟨[], by simp, by simp⟩
    · generalize args.get ⟨0, by omega⟩ = name
      by_cases hv : (stub.cidGetAttributeValue "pID").value = "GRP1"
      · refine ⟨[Access.get "collection1PrivateProducts" name], ?_, ?_⟩
        · rcases hg : stub.getFailure "collection1PrivateProducts" name with _ | e <;>
          rcases hd : l.data "collection1PrivateProducts" name with _ | v <;>
          simp [GetPrivateData, hg, hd, hv]
        · intro a ha
          rw [List.mem_singleton] at ha
          subst ha
          simp [Access.collection]
      · exact ⟨[], by simp [hv], by simp⟩

/-- Witness of C12: with "GRP1" the organisation is written to "collection1PrivateProducts",
with "GRP2" the request is rejected. -/
theorem attribute_routing_as_coded_witness :
    (addOrgDetails orgJson grp1Stub ["OrgX", "test org", "5"] emptyLedger).2.log
      = [Access.put "collection1PrivateProducts" "OrgX" orgRecord] ∧
    addOrgDetails orgJson grp2Stub ["OrgX", "test org", "5"] emptyLedger
      = (shim.Error "Not a valid user", emptyLedger) :=
  ⟨((attribute_routing_as_coded orgJson grp1Stub emptyLedger).1
      ["OrgX", "test org", "5"] orgTransient orgPayload ⟨"", "OrgX", "test org", 5⟩
      rfl rfl rfl (by decide) rfl (by decide) (by decide) (by decide) rfl).1 rfl orgRecord rfl,
   ((attribute_routing_as_coded orgJson grp2Stub emptyLedger).1
      ["OrgX", "test org", "5"] orgTransient orgPayload ⟨"", "OrgX", "test org", 5⟩
      rfl rfl rfl (by decide) rfl (by decide) (by decide) (by decide) rfl).2 (by decide)⟩

/-- C13. Organisation round trip with overwrite: for every store, whatever the target
collection holds under `n`, `addOrgDetails` with exactly 3 arguments and a non-empty transient
"orgDetails" payload decoding to non-empty name `n`, non-empty desc `d` and size `s > 0`,
called by a caller whose "pID" attribute is "GRP1", with no store call failing, returns
success, and a following `readPrivateDetails [n]` by a caller with attribute "GRP1" returns
success whose payload is `b`, the serialization of the record with docType "org", name `n`,
desc `d` and size `s`. -/
theorem addOrgDetails_then_readPrivateDetails
    (json : Json) (stub stub2 : Stub) (args : List String) (l : Ledger)
    (transMap : String → Option Bytes) (raw : Bytes) (docType n d : String) (s : Int)
    (b : Bytes)
    (hargs : args.length = 3)
    (htrans : stub.GetTransient = .ok transMap)
    (hkey : transMap "orgDetails" = some raw)
    (hraw : raw ≠ [])
    (hdec : json.UnmarshalOrg raw = .ok ⟨docType, n, d, s⟩)
    (hn : n ≠ "") (hd : d ≠ "") (hs : 0 < s)
    (herr : (stub.cidGetAttributeValue "pID").err = none)
    (hattr : (stub.cidGetAttributeValue "pID").value = "GRP1")
    (hmarshal : json.MarshalOrg ⟨"org", n, d, s⟩ = .ok b)
    (hput : stub.putFailure "collection1PrivateProducts" n b = none)
    (hattr2 : (stub2.cidGetAttributeValue "pID").value = "GRP1")
    (hget2 : stub2.getFailure "collection1PrivateProducts" n = none) :
    (addOrgDetails json stub args l).1 = shim.Success [] ∧
    (readPrivateDetails stub2 [n] (addOrgDetails json stub args l).2).1 = shim.Success b := by
  have hn0 : n.length ≠ 0 := fun h => hn ((length_eq_zero_iff n).mp h)
  have hd0 : d.length ≠ 0 := fun h => hd ((length_eq_zero_iff d).mp h)
  have hs0 : ¬ s ≤ 0 := not_le.mpr hs
  have hraw0 : raw.length ≠ 0 := fun h => hraw (List.length_eq_zero.mp h)
  simp [addOrgDetails, readPrivateDetails, GetPrivateData, PutPrivateData, hargs, htrans,
    hkey, hraw0, hdec, hn0, hd0, hs0, herr, hattr, hmarshal, hput, hattr2, hget2]

/-- Witness of C13: "OrgX" is written over a store that holds other bytes under "OrgX" and
read back. -/
theorem addOrgDetails_then_readPrivateDetails_witness :
    (addOrgDetails orgJson grp1Stub ["OrgX", "test org", "5"]
      { orgLedger with data := fun _ _ => some [9] }).1 = shim.Success [] ∧
    (readPrivateDetails grp1Stub ["OrgX"]
      (addOrgDetails orgJson grp1Stub ["OrgX", "test org", "5"]
        { orgLedger with data := fun _ _ => some [9] }).2).1 = shim.Success orgRecord :=
  addOrgDetails_then_readPrivateDetails orgJson grp1Stub grp1Stub
    ["OrgX", "test org", "5"] { orgLedger with data := fun _ _ => some [9] }
    orgTransient orgPayload "" "OrgX" "test org" 5 orgRecord
    rfl rfl rfl (by decide) rfl (by decide) (by decide) (by decide) rfl rfl rfl rfl rfl rfl

/-- C14. Write-time and read-time attribute resolution agree: for every response
`cid.GetAttributeValue` gives to the "pID" query (value, found flag, error or no error),
`addOrgDetails` with 3 arguments and a valid payload and `readPrivateDetails` with one
argument either both reject at the attribute step, without a store call, or both address the
same collection; and a lookup error rejects the read ("Not a valid user") just as it rejects
the write ("could not do abac"). -/
theorem attribute_resolution_agrees
    (json : Json) (stub : Stub) (args : List String) (l : Ledger)
    (transMap : String → Option Bytes) (raw : Bytes) (inp : orgTransientInput) (n : String)
    (hargs : args.length = 3)
    (htrans : stub.GetTransient = .ok transMap)
    (hkey : transMap "orgDetails" = some raw)
    (hraw : raw ≠ [])
    (hdec : json.UnmarshalOrg raw = .ok inp)
    (hn : inp.Name ≠ "") (hd : inp.Desc ≠ "") (hs : 0 < inp.Size)
    (hlib : (stub.cidGetAttributeValue "pID").fromLibrary) :
    (((∃ msg, (msg = "could not do abac" ∨ msg = "Not a valid user") ∧
          addOrgDetails json stub args l = (shim.Error msg, l)) ∧
        readPrivateDetails stub [n] l = (shim.Error "Not a valid user", l)) ∨
      (∃ collection,
        (∀ b, json.MarshalOrg ⟨"org", inp.Name, inp.Desc, inp.Size⟩ = .ok b →
          (addOrgDetails json stub args l).2.log
            = l.log ++ [Access.put collection inp.Name b]) ∧
        (readPrivateDetails stub [n] l).2.log = l.log ++ [Access.get collection n])) ∧
    ((stub.cidGetAttributeValue "pID").err ≠ none →
      addOrgDetails json stub args l = (shim.Error "could not do abac", l) ∧
      readPrivateDetails stub [n] l = (shim.Error "Not a valid user", l)) := by
  have hn0 : inp.Name.length ≠ 0 := fun h => hn ((length_eq_zero_iff _).mp h)
  have hd0 : inp.Desc.length ≠ 0 := fun h => hd ((length_eq_zero_iff _).mp h)
  have hs0 : ¬ inp.Size ≤ 0 := not_le.mpr hs
  have hraw0 : raw.length ≠ 0 := fun h => hraw (List.length_eq_zero.mp h)
  have hfail : (stub.cidGetAttributeValue "pID").err ≠ none →
      addOrgDetails json stub args l = (shim.Error "could not do abac", l) ∧
      readPrivateDetails stub [n] l = (shim.Error "Not a valid user", l) := by
    intro herr
    rcases hlib with h | ⟨hv, _⟩
    · exact absurd h herr
    · have hne : (stub.cidGetAttributeValue "pID").value ≠ "GRP1" := by
        rw [hv]
        decide
      rcases he : (stub.cidGetAttributeValue "pID").err with _ | e
      · exact absurd he herr
      · constructor
        · simp [addOrgDetails, hargs, htrans, hkey, hraw0, hdec, hn0, hd0, hs0, he]
        · simp [readPrivateDetails, hne]
  refine ⟨?_, hfail⟩
  rcases he : (stub.cidGetAttributeValue "pID").err with _ | e
  · by_cases hv : (stub.cidGetAttributeValue "pID").value = "GRP1"
    · refine Or.inr ⟨"collection1PrivateProducts", ?_, ?_⟩
      · intro b hb
        rcases hp : stub.putFailure "collection1PrivateProducts" inp.Name b with _ | e <;>
        simp [addOrgDetails, PutPrivateData, hargs, htrans, hkey, hraw0, hdec, hn0, hd0, hs0,
          he, hv, hb, hp]
      · rcases hg : stub.getFailure "collection1PrivateProducts" n with _ | e <;>
        rcases hdat : l.data "collection1PrivateProducts" n with _ | v <;>
        simp [readPrivateDetails, GetPrivateData, hv, hg, hdat]
    · refine Or.inl ⟨⟨"Not a valid user", Or.inr rfl, ?_⟩, ?_⟩
      · simp [addOrgDetails, hargs, htrans, hkey, hraw0, hdec, hn0, hd0, hs0, he, hv]
      · simp [readPrivateDetails, hv]
  · have h := hfail (by rw [he]; simp)
    exact Or.inl ⟨⟨"could not do abac", Or.inl rfl, h.1⟩, h.2⟩

/-- Witness of C14: when the lookup fails the write is rejected with "could not do abac" and
the read with "Not a valid user", although the store holds a record under "OrgX". -/
theorem attribute_resolution_agrees_witness :
    addOrgDetails orgJson lookupErrorStub ["OrgX", "test org", "5"] orgLedger
      = (shim.Error "could not do abac", orgLedger) ∧
    readPrivateDetails lookupErrorStub ["OrgX"] orgLedger
      = (shim.Error "Not a valid user", orgLedger) :=
  (attribute_resolution_agrees orgJson lookupErrorStub ["OrgX", "test org", "5"] orgLedger
    orgTransient orgPayload ⟨"", "OrgX", "test org", 5⟩ "OrgX"
    rfl rfl rfl (by decide) rfl (by decide) (by decide) (by decide)
    (Or.inr ⟨rfl, rfl⟩)).2 (by decide)

/-- C15. First violation wins in the field validation of `addProduct`, in the order name,
color, owner, price: for every payload that reaches validation (4 arguments, non-empty
payload that decodes) the error returned is the one of the first violated field, and no
store call is issued. -/
theorem addProduct_first_violation_wins
    (json : Json) (stub : Stub) (args : List String) (l : Ledger)
    (transMap : String → Option Bytes) (raw : Bytes) (inp : productTransientInput)
    (hargs : args.length = 4)
    (htrans : stub.GetTransient = .ok transMap)
    (hkey : transMap "product" = some raw)
    (hraw : raw ≠ [])
    (hdec : json.UnmarshalProduct raw = .ok inp) :
    (inp.Name = "" →
      addProduct json stub args l = (shim.Error "name field must be a non-empty string", l)) ∧
    (inp.Name ≠ "" → inp.Color = "" →
      addProduct json stub args l = (shim.Error "color field must be a non-empty string", l)) ∧
    (inp.Name ≠ "" → inp.Color ≠ "" → inp.Owner = "" →
      addProduct json stub args l = (shim.Error "owner field must be a non-empty string", l)) ∧
    (inp.Name ≠ "" → inp.Color ≠ "" → inp.Owner ≠ "" → inp.Price ≤ 0 →
      addProduct json stub args l
        = (shim.Error "price field must be a positive integer", l)) := by
  have hraw0 : raw.length ≠ 0 := fun h => hraw (List.length_eq_zero.mp h)
  have hlen : ∀ s : String, s ≠ "" → s.length ≠ 0 :=
    fun s hs h => hs ((length_eq_zero_iff s).mp h)
  have hzero : ∀ s : String, s = "" → s.length = 0 :=
    fun s hs => (length_eq_zero_iff s).mpr hs
  refine ⟨?_, ?_, ?_, ?_⟩
  · intro h1
    simp [addProduct, hargs, htrans, hkey, hraw0, hdec, hzero _ h1]
  · intro h1 h2
    simp [addProduct, hargs, htrans, hkey, hraw0, hdec, hlen _ h1, hzero _ h2]
  · intro h1 h2 h3
    simp [addProduct, hargs, htrans, hkey, hraw0, hdec, hlen _ h1, hlen _ h2, hzero _ h3]
  · intro h1 h2 h3 h4
    simp [addProduct, hargs, htrans, hkey, hraw0, hdec, hlen _ h1, hlen _ h2, hlen _ h3, h4]

/-- Witness of C15: a payload with an empty name and price 0 yields the name message. -/
theorem addProduct_first_violation_wins_witness :
    addProduct { sampleJson with UnmarshalProduct := fun _ => .ok ⟨"", "", "red", "alice", 0⟩ }
      manufacturerStub ["widget", "red", "alice", "10"] emptyLedger
      = (shim.Error "name field must be a non-empty string", emptyLedger) :=
  (addProduct_first_violation_wins
    { sampleJson with UnmarshalProduct := fun _ => .ok ⟨"", "", "red", "alice", 0⟩ }
    manufacturerStub ["widget", "red", "alice", "10"] emptyLedger widgetTransient
    widgetPayload ⟨"", "", "red", "alice", 0⟩ rfl rfl rfl (by decide) rfl).1 rfl

/-- C16. Stored-product invariant: if every value in "collectionProducts" is the
serialization of a product record with docType "product", a non-empty name equal to the key
it is stored under, non-empty color and owner and price > 0, then the same holds after any
invocation of `addProduct`, `addOrgDetails`, `readProduct` or `readPrivateDetails`, directly
or through `Invoke`; and whatever `addProduct` newly stores is such a record, so its docType
is "product" whatever docType the transient payload supplies. -/
theorem stored_products_stay_valid (json : Json) (stub : Stub) (args : List String)
    (l : Ledger) (hinv : productsValid json l) :
    productsValid json (addProduct json stub args l).2 ∧
    productsValid json (addOrgDetails json stub args l).2 ∧
    productsValid json (readProduct stub args l).2 ∧
    productsValid json (readPrivateDetails stub args l).2 ∧
    productsValid json (Invoke json stub l).2 ∧
    (∀ key value, (addProduct json stub args l).2.data "collectionProducts" key = some value →
      l.data "collectionProducts" key ≠ some value → validProduct json key value) := by
  refine ⟨addProduct_productsValid json stub args l hinv,
    addOrgDetails_productsValid json stub args l hinv,
    productsValid_of_data_eq json l _ (readProduct_data stub args l) hinv,
    productsValid_of_data_eq json l _ (readPrivateDetails_data stub args l) hinv, ?_,
    fun key value => addProduct_written_valid json stub args l key value⟩
  unfold Invoke GetFunctionAndParameters
  dsimp only
  split_ifs
  · exact addProduct_productsValid json stub stub.args l hinv
  · exact productsValid_of_data_eq json l _ (readProduct_data stub stub.args l) hinv
  · exact addOrgDetails_productsValid json stub stub.args l hinv
  · exact productsValid_of_data_eq json l _ (readPrivateDetails_data stub stub.args l) hinv
  · exact hinv

/-- Witness of C16: a store holding the widget record under "widget" satisfies the invariant,
and still does after a manufacturer's `addProduct`. -/
theorem stored_products_stay_valid_witness :
    productsValid sampleJson recordLedger ∧
    productsValid sampleJson
      (addProduct sampleJson manufacturerStub ["widget", "red", "alice", "10"] recordLedger).2 :=
  have hinv : productsValid sampleJson recordLedger := by
    intro key value hk
    by_cases h : key = "widget"
    · subst h
      have hv : widgetRecord = value := Option.some.inj hk
      subst hv
      exact ⟨⟨"product", "widget", "red", "alice", 10⟩, rfl, rfl, rfl, by decide, by decide,
        by decide, by decide⟩
    · simp [recordLedger, h] at hk
  ⟨hinv, (stored_products_stay_valid sampleJson manufacturerStub
    ["widget", "red", "alice", "10"] recordLedger hinv).1⟩

/-- C17. The contents of the positional arguments do not influence the create operations:
for two argument lists of length 4 and the same transient map, caller and store,
`addProduct` returns the same response and leaves the same store; likewise `addOrgDetails`
for two argument lists of length 3. -/
theorem create_ignores_argument_contents (json : Json) (stub : Stub)
    (args1 args2 : List String) (l : Ledger) :
    (args1.length = 4 → args2.length = 4 →
      addProduct json stub args1 l = addProduct json stub args2 l) ∧
    (args1.length = 3 → args2.length = 3 →
      addOrgDetails json stub args1 l = addOrgDetails json stub args2 l) := by
  constructor
  · intro h1 h2
    unfold addProduct
    rw [h1, h2]
  · intro h1 h2
    unfold addOrgDetails
    rw [h1, h2]

/-- Witness of C17: four other strings give the same result as the widget's fields. -/
theorem create_ignores_argument_contents_witness :
    addProduct sampleJson manufacturerStub ["widget", "red", "alice", "10"] emptyLedger
      = addProduct sampleJson manufacturerStub ["", "x", "y", "-1"] emptyLedger :=
  (create_ignores_argument_contents sampleJson manufacturerStub
    ["widget", "red", "alice", "10"] ["", "x", "y", "-1"] emptyLedger).1 rfl rfl

/-- C18. Frame of a successful create: a successful `addProduct` whose transient payload
decodes to the name `n` changes at most the entry ("collectionProducts", `n`), and a
successful `addOrgDetails` whose payload decodes to the name `n` changes at most the entry
("collection1PrivateProducts", `n`); every other key of that collection and every other
collection holds what it held, and `addOrgDetails` never modifies "collectionProducts". -/
theorem create_frame (json : Json) (stub : Stub) (args : List String) (l : Ledger) :
    (∀ transMap raw inp, stub.GetTransient = .ok transMap → transMap "product" = some raw →
      json.UnmarshalProduct raw = .ok inp →
      (addProduct json stub args l).1.Status = shim.OK →
      ∀ c k, ¬ (c = "collectionProducts" ∧ k = inp.Name) →
        (addProduct json stub args l).2.data c k = l.data c k) ∧
    (∀ transMap raw inp, stub.GetTransient = .ok transMap → transMap "orgDetails" = some raw →
      json.UnmarshalOrg raw = .ok inp →
      (addOrgDetails json stub args l).1.Status = shim.OK →
      ∀ c k, ¬ (c = "collection1PrivateProducts" ∧ k = inp.Name) →
        (addOrgDetails json stub args l).2.data c k = l.data c k) ∧
    (∀ k, (addOrgDetails json stub args l).2.data "collectionProducts" k
      = l.data "collectionProducts" k) := by
  refine ⟨?_, ?_, addOrgDetails_products json stub args l⟩
  · intro transMap raw inp htrans hkey hdec _ c k hck
    rcases addProduct_data json stub args l with h | ⟨tm, raw1, inp1, b, h1, h2, h3, _, _, _,
      _, _, h⟩
    · rw [h]
    · rw [htrans] at h1
      cases h1
      rw [hkey] at h2
      cases h2
      rw [hdec] at h3
      cases h3
      rw [h]
      simp [hck]
  · intro transMap raw inp htrans hkey hdec _ c k hck
    rcases addOrgDetails_data json stub args l with h | ⟨tm, raw1, inp1, b, h1, h2, h3, h⟩
    · rw [h]
    · rw [htrans] at h1
      cases h1
      rw [hkey] at h2
      cases h2
      rw [hdec] at h3
      cases h3
      rw [h]
      simp [hck]

/-- Witness of C18: adding the widget to a store that holds an organisation leaves the
organisation's entry as it was. -/
theorem create_frame_witness :
    (addProduct sampleJson manufacturerStub ["widget", "red", "alice", "10"] orgLedger).2.data
      "collection1PrivateProducts" "OrgX" = orgLedger.data "collection1PrivateProducts" "OrgX" :=
  (create_frame sampleJson manufacturerStub ["widget", "red", "alice", "10"] orgLedger).1
    widgetTransient widgetPayload ⟨"", "widget", "red", "alice", 10⟩ rfl rfl rfl rfl
    "collection1PrivateProducts" "OrgX" (by decide)

/-- C19. The read operations are read-only: for every argument list, caller and store,
`readProduct` and `readPrivateDetails` leave what the store holds exactly as it was, whether
they return success or an error. -/
theorem reads_leave_store (stub : Stub) (args : List String) (l : Ledger) :
    (readProduct stub args l).2.data = l.data ∧
    (readPrivateDetails stub args l).2.data = l.data :=
  ⟨readProduct_data stub args l, readPrivateDetails_data stub args l⟩

end Chaincode
